import Mathlib

/-!
Shallow embedding of the query-construction and result-normalization layer of
the timesketch tool server (`src/timesketch_mcp_server/tools.py`), together
with theorems settling the specification claims about it.

Conventions of the embedding:
* Python strings are Lean `String`s; `str.replace` is modelled by a fuel-based
  scanner with Python's left-to-right non-overlapping semantics.
* Python exceptions are the inductive `PyErr` (`ValueError`, `RuntimeError`,
  anything else); a function that may raise returns `Except PyErr α`.
* A pandas `DataFrame` is a column-name list plus rows of optional cells
  (`none` is the missing/NaN marker).
* The external world (sketch resolution, remote search execution) is an
  explicit environment passed in; one environment per retry attempt models
  state that may change between attempts.
-/

/-- Python exception kinds relevant to `tools.py`: `ValueError` (raised for a
sketch that fails to resolve, and the class the retry decorator retries on),
`RuntimeError` (named in the docstring of `do_timesketch_search`), and any
other exception. -/
inductive PyErr where
  | valueError : String → PyErr
  | runtimeError : String → PyErr
  | otherError : String → PyErr
deriving DecidableEq, Repr

/-- `str(e)`: the message carried by the exception. -/
def PyErr.msg : PyErr → String
  | .valueError m => m
  | .runtimeError m => m
  | .otherError m => m

/-- `isinstance(e, ValueError)` — the retry predicate installed by
`@retry(tries=3, delay=10, error_types=(ValueError,))`. -/
def PyErr.isValueError : PyErr → Bool
  | .valueError _ => true
  | _ => false

/-- The `RESERVED_CHARS` list from `tools.py`, in source order.  Note the
backslash sits second-to-last, after every character whose escape inserts a
backslash. -/
def RESERVED_CHARS : List String :=
  ["+", "-", "=", "&&", "||", ">", "<", "!", "(", ")", "\x7b", "\x7d",
   "[", "]", "^", "\"", "~", "*", "?", ":", "\\", "/"]

/-- Python `str.replace` on character lists: scan left to right, replacing
non-overlapping occurrences of `pat` by `rep`.  The fuel argument makes the
recursion structural; with `fuel ≥ s.length` and a non-empty `pat` (every
pattern in `RESERVED_CHARS` is non-empty) it computes exactly Python's
`s.replace(pat, rep)`. -/
def replaceFuel (pat rep : List Char) : Nat → List Char → List Char
  | _, [] => []
  | 0, s => s
  | fuel + 1, c :: rest =>
    if pat.isPrefixOf (c :: rest) then
      rep ++ replaceFuel pat rep fuel (List.drop (pat.length - 1) rest)
    else
      c :: replaceFuel pat rep fuel rest

/-- Python `s.replace(pat, rep)` for strings. -/
def pyReplace (s pat rep : String) : String :=
  ⟨replaceFuel pat.data rep.data s.data.length s.data⟩

/-- The escaping loop of `search_timesketch_events_substrings`:
`for char in RESERVED_CHARS: substring = substring.replace(char, f"\\{char}")`. -/
def escapeReserved (s : String) : String :=
  RESERVED_CHARS.foldl (fun acc c => pyReplace acc c ("\\" ++ c)) s

/-- The per-substring term list: empty substrings are skipped; in regex mode a
substring becomes `/.*s.*/`, otherwise it is escaped and wrapped `*s*`. -/
def buildTerms (substrings : List String) (regex : Bool) : List String :=
  substrings.filterMap fun s =>
    if s.isEmpty then none
    else if regex then some ("/.*" ++ s ++ ".*/")
    else some ("*" ++ escapeReserved s ++ "*")

/-- `boolean_operator = f" {boolean_operator} "` followed by
`query = boolean_operator.join(terms)`. -/
def buildQuery (substrings : List String) (regex : Bool) (op : String) : String :=
  String.intercalate (" " ++ op ++ " ") (buildTerms substrings regex)

/-- A cell value of the result table: either a plain (string-like) value or a
native datetime object, on which the code calls `.isoformat()`. -/
inductive Cell where
  | str : String → Cell
  | dtv : Int → Cell
deriving DecidableEq, Repr

/-- `x.isoformat()` on a native datetime object yields its ISO string; the
concrete rendering is abstracted as `toString`, injective on the model. -/
def isoCell : Cell → Cell
  | .dtv t => .str (toString t)
  | c => c

/-- A pandas DataFrame: a list of column names and rows of optional cells
(`none` is the missing/NaN marker).  Well-formed frames have every row of the
same length as `cols`. -/
structure DataFrame where
  cols : List String
  rows : List (List (Option Cell))
deriving DecidableEq, Repr

/-- `fillna` on one cell: a missing value becomes the sentinel `"N/A"`. -/
def fillCell : Option Cell → Option Cell
  | none => some (Cell.str "N/A")
  | some c => some c

/-- Apply `f` to the cell at position `j` of a row, leaving the rest alone. -/
def mapAt (f : Option Cell → Option Cell) : Nat → List (Option Cell) → List (Option Cell)
  | _, [] => []
  | 0, c :: rest => f c :: rest
  | j + 1, c :: rest => c :: mapAt f j rest

/-- Apply `f` to every cell of the column named `c` (no-op if absent):
models `result_df[c] = result_df[c].<op>`. -/
def mapColumn (d : DataFrame) (c : String) (f : Option Cell → Option Cell) : DataFrame :=
  match d.cols.indexOf? c with
  | none => d
  | some j => { d with rows := d.rows.map (mapAt f j) }

/-- `result_df[c] = result_df[c].fillna("N/A")`. -/
def fillColumn (d : DataFrame) (c : String) : DataFrame :=
  mapColumn d c fillCell

/-- `result_df["datetime"] = result_df["datetime"].apply(lambda x: x.isoformat())`.
(The source assumes the column is present; absence is modelled as a no-op.) -/
def isoColumn (d : DataFrame) : DataFrame :=
  mapColumn d "datetime" (Option.map isoCell)

/-- `result_df = result_df.fillna("N/A")` over the whole table. -/
def fillnaAll (d : DataFrame) : DataFrame :=
  { d with rows := d.rows.map (List.map fillCell) }

/-- The normalization tail of `do_timesketch_search` (the code after the raw
table is obtained): return an empty table unchanged; fill missing values of
`yara_match` and `sha256_hash` when those columns are present (the
`extra_cols` list the source also builds there is dead code — it is never
read); convert the datetime column to ISO strings; fill every remaining
missing value with `"N/A"`.  No column restriction is performed. -/
def normalizeDf (d : DataFrame) : DataFrame :=
  if d.rows.isEmpty then d
  else
    let d1 := if d.cols.contains "yara_match" then fillColumn d "yara_match" else d
    let d2 := if d1.cols.contains "sha256_hash" then fillColumn d1 "sha256_hash" else d1
    fillnaAll (isoColumn d2)

/-- `df.to_dict(orient="records")`: one assoc list per row, keyed by the
column names. -/
def toRecords (d : DataFrame) : List (List (String × Option Cell)) :=
  d.rows.map fun row => d.cols.zip row

/-- The search parameters configured on the remote `search.Search` instance
before execution. -/
structure SearchConfig where
  query : String
  maxEntries : Nat
  returnFields : String
  orderDescending : Bool
  starChip : Bool
deriving DecidableEq, Repr

/-- The configuration built by `do_timesketch_search`: the query, the max
entry bound (`limit` when truthy — a Python int is falsy exactly when 0 —
else `expected_size + 1`), the `"*,_id"` return-field list, the sort
direction, and the star-label chip when `starred`. -/
def mkSearchConfig (query : String) (limit : Nat) (expected_size : Nat)
    (sort : String) (starred : Bool) : SearchConfig :=
  { query := query
    maxEntries := if limit ≠ 0 then limit else expected_size + 1
    returnFields := "*,_id"
    orderDescending := sort == "desc"
    starChip := starred }

/-- The external world as seen by one attempt of the search path:
`sketch` is the result of `get_timesketch_client().get_sketch(sketch_id)`
(`none` models a falsy/missing sketch), `expected_size` the search instance's
expected size, and `table` the outcome of reading `search_instance.table` for
the configured search (either the raw result frame or a raised exception). -/
structure AttemptEnv where
  sketch : Option Unit
  expected_size : Nat
  table : SearchConfig → Except PyErr DataFrame

/-- One attempt of the body of `do_timesketch_search`: resolve the sketch
(raising `ValueError` when it is falsy), configure the search, execute it
(propagating any exception unwrapped — the source has no try/except around
`search_instance.table`), and normalize a successful result. -/
def doSearchAttempt (env : AttemptEnv) (sketch_id : Nat) (query : String)
    (limit : Nat) (sort : String) (starred : Bool) : Except PyErr DataFrame :=
  match env.sketch with
  | none =>
    .error (.valueError ("Sketch with ID " ++ toString sketch_id ++ " not found."))
  | some _ =>
    match env.table (mkSearchConfig query limit env.expected_size sort starred) with
    | .error e => .error e
    | .ok df => .ok (normalizeDf df)

/-- The loop of the `retry` decorator, specialised to a non-empty
`error_types` tuple (so the predicate test is live).  `f i` is the outcome of
the `i`-th call of the wrapped function; `fuel` is the number of loop
iterations left (`tries - i`).  Returns the final outcome, the number of
attempts made and the list of sleeps performed (each of `delay` units).
Python returns `None` when `tries = 0`; that unreachable case is modelled as
an error outcome with zero attempts. -/
def retryRun (delay : Nat) (retryOn : PyErr → Bool) (f : Nat → Except PyErr DataFrame) :
    Nat → Nat → Except PyErr DataFrame × Nat × List Nat
  | _, 0 => (.error (.otherError "retry loop made no attempt"), 0, [])
  | i, fuel + 1 =>
    match f i with
    | .ok a => (.ok a, 1, [])
    | .error e =>
      if ¬ retryOn e then (.error e, 1, [])
      else if fuel = 0 then (.error e, 1, [])
      else
        let r := retryRun delay retryOn f (i + 1) fuel
        (r.1, r.2.1 + 1, delay :: r.2.2)

/-- `do_timesketch_search` as decorated:
`@retry(tries=3, delay=10, error_types=(ValueError,))` around the attempt
body.  The environment is indexed by attempt number so remote state may
change between attempts. -/
def do_timesketch_search (env : Nat → AttemptEnv) (sketch_id : Nat) (query : String)
    (limit : Nat) (sort : String) (starred : Bool) :
    Except PyErr DataFrame × Nat × List Nat :=
  retryRun 10 PyErr.isValueError
    (fun i => doSearchAttempt (env i) sketch_id query limit sort starred) 0 3

/-- One returned record: field name to value. -/
abbrev Record := List (String × Option Cell)

/-- The error payload both tools return when the search path raises:
`[{"result": f"Error: {str(e)}"}]`. -/
def errorRecord (e : PyErr) : List Record :=
  [[("result", some (.str ("Error: " ++ e.msg)))]]

/-- Observable outcome of one tool invocation: the returned value (or the
exception the tool itself raises, for invalid input), the number of attempts
the search executor made (0 when it was never called), and the limit and
query it was called with (none when it was never called). -/
structure ToolTrace where
  result : Except PyErr (List Record)
  searchAttempts : Nat
  limitUsed : Option Nat
  queryUsed : Option String
deriving Repr

/-- `search_timesketch_events_substrings`: validate (raising `ValueError` for
an empty substring list or an operator outside AND/OR, before anything else),
build the query, then run `do_timesketch_search` with its default
`limit=300`, converting a successful frame with `to_dict(orient="records")`
and any exception into the error record. -/
def search_timesketch_events_substrings (env : Nat → AttemptEnv) (sketch_id : Nat)
    (substrings : List String) (regex : Bool) (boolean_operator : String)
    (sort : String) (starred : Bool) : ToolTrace :=
  if substrings.isEmpty then
    { result := .error (.valueError "Substrings list cannot be empty.")
      searchAttempts := 0, limitUsed := none, queryUsed := none }
  else if ¬ (["AND", "OR"].contains boolean_operator) then
    { result := .error (.valueError ("Invalid boolean operator: " ++ boolean_operator
        ++ ". Must be one of 'AND' or 'OR'."))
      searchAttempts := 0, limitUsed := none, queryUsed := none }
  else
    let query := buildQuery substrings regex boolean_operator
    let r := do_timesketch_search env sketch_id query 300 sort starred
    match r.1 with
    | .ok df =>
      { result := .ok (toRecords df), searchAttempts := r.2.1
        limitUsed := some 300, queryUsed := some query }
    | .error e =>
      { result := .ok (errorRecord e), searchAttempts := r.2.1
        limitUsed := some 300, queryUsed := some query }

/-- `search_timesketch_events_advanced`: run the caller's query through
`do_timesketch_search` (default `limit=300`), converting a successful frame
with `to_dict(orient="records")` and any exception into the error record. -/
def search_timesketch_events_advanced (env : Nat → AttemptEnv) (sketch_id : Nat)
    (query : String) (sort : String) (starred : Bool) : ToolTrace :=
  let r := do_timesketch_search env sketch_id query 300 sort starred
  match r.1 with
  | .ok df =>
    { result := .ok (toRecords df), searchAttempts := r.2.1
      limitUsed := some 300, queryUsed := some query }
  | .error e =>
    { result := .ok (errorRecord e), searchAttempts := r.2.1
      limitUsed := some 300, queryUsed := some query }

/-- `max([...], default=0)` over the bucket counts. -/
def maxCount (counts : List Nat) : Nat := counts.foldl max 0

/-- The inner loop of `discover_fields_for_datatype` over the keys of one
event.  `fields` is the insertion-ordered dict: a key maps to `none`
(Python `None`, the `max_occurrences < 10` branch) or to the bucket counts
kept as examples (the `max_occurrences >= 10` branch).  `agg f` is the list
of counts of the top-10 `field_bucket` aggregation for field `f`. -/
def processEvent (agg : String → List Nat) :
    List String → List (String × Option (List Nat)) → List (String × Option (List Nat))
  | [], fields => fields
  | f :: fs, fields =>
    if (fields.map Prod.fst).contains f then
      processEvent agg fs fields
    else
      let top_values := agg f
      let max_occurrences := maxCount top_values
      if max_occurrences < 10 then
        processEvent agg fs (fields ++ [(f, none)])
      else
        processEvent agg fs (fields ++ [(f, some top_values)])

/-- The outer loop of `discover_fields_for_datatype` over all events. -/
def discoverLoop (agg : String → List Nat) :
    List (List String) → List (String × Option (List Nat)) → List (String × Option (List Nat))
  | [], fields => fields
  | event :: rest, fields => discoverLoop agg rest (processEvent agg event fields)

/-- `discover_fields_for_datatype`, given the key lists of the returned
events and the aggregation oracle: run the accumulation loops, then return
`[field for field in fields.keys() if fields[field] is not None]`. -/
def discover_fields_for_datatype (agg : String → List Nat)
    (events : List (List String)) : List String :=
  (discoverLoop agg events []).filterMap fun p =>
    if p.2.isSome then some p.1 else none

/-- The cell at row `i`, column position `j` of a frame (outer `none` when out
of range; inner `none` is the missing marker). -/
def cellAt (d : DataFrame) (i j : Nat) : Option (Option Cell) :=
  d.rows[i]?.bind fun row => row[j]?

/-- The dict value `discover_fields_for_datatype` stores for a field on first
sight: Python `None` when the top bucket count is `< 10`, else the buckets
kept as examples. -/
def flagOf (agg : String → List Nat) (f : String) : Option (List Nat) :=
  if maxCount (agg f) < 10 then none else some (agg f)

/-- A raw result frame whose columns include `source_ip`, a column outside
the fixed set named by the specification, with one row containing a missing
`tag` cell. -/
def dfExtra : DataFrame :=
  { cols := ["datetime", "data_type", "tag", "message", "source_ip"]
    rows := [[some (.dtv 5), some (.str "t"), none,
              some (.str "m"), some (.str "1.2.3.4")]] }

/-- An environment whose sketch resolves and whose search succeeds with
`dfExtra` on every attempt. -/
def envOkW : Nat → AttemptEnv := fun _ =>
  { sketch := some (), expected_size := 7, table := fun _ => .ok dfExtra }

/-- An environment whose sketch never resolves. -/
def envNotFoundW : Nat → AttemptEnv := fun _ =>
  { sketch := none, expected_size := 7, table := fun _ => .ok dfExtra }

/-- An environment whose sketch resolves but whose remote execution raises a
generic (non-`ValueError`) exception on every attempt. -/
def envBoomW : Nat → AttemptEnv := fun _ =>
  { sketch := some (), expected_size := 7, table := fun _ => .error (.otherError "boom") }

/-- An environment whose sketch resolves but whose remote execution raises a
`ValueError` on every attempt. -/
def envValErrW : Nat → AttemptEnv := fun _ =>
  { sketch := some (), expected_size := 7, table := fun _ => .error (.valueError "bad query") }

/-- A frame with missing cells in `yara_match`, `sha256_hash` and an
unrelated column. -/
def dfMissing : DataFrame :=
  { cols := ["datetime", "data_type", "yara_match", "sha256_hash", "extra"]
    rows := [[some (.dtv 3), some (.str "t"), none, none, none],
             [some (.dtv 4), none, some (.str "r1"), some (.str "h1"), some (.str "v")]] }

/-- `mapColumn` never touches the column list. -/
theorem mapColumn_cols (d : DataFrame) (c : String) (f : Option Cell → Option Cell) :
    (mapColumn d c f).cols = d.cols := by
  unfold mapColumn
  split <;> rfl

/-- `fillnaAll` never touches the column list. -/
theorem fillnaAll_cols (d : DataFrame) : (fillnaAll d).cols = d.cols := rfl

/-- Normalization preserves the column list of the raw result frame. -/
theorem normalizeDf_cols (d : DataFrame) : (normalizeDf d).cols = d.cols := by
  unfold normalizeDf
  split
  · rfl
  · rw [fillnaAll_cols]
    unfold isoColumn
    rw [mapColumn_cols]
    split <;> split <;> simp [fillColumn, mapColumn_cols]

/-- Filling one cell always yields a present value. -/
theorem fillCell_isSome (c : Option Cell) : (fillCell c).isSome := by
  cases c <;> rfl

/-- Pointwise description of `mapAt`. -/
theorem mapAt_getElem? (f : Option Cell → Option Cell) (l : List (Option Cell)) :
    ∀ j k, (mapAt f j l)[k]? = if k = j then (l[k]?).map f else l[k]? := by
  induction l with
  | nil => intro j k; simp [mapAt]
  | cons c rest ih =>
    intro j k
    cases j with
    | zero =>
      cases k with
      | zero => simp [mapAt]
      | succ m => simp [mapAt]
    | succ n =>
      cases k with
      | zero => simp [mapAt]
      | succ m => simpa [mapAt, Nat.succ_inj] using ih n m

/-- A column transformation leaves a cell alone or applies its function. -/
theorem cellAt_mapColumn_cases (d : DataFrame) (c : String) (f : Option Cell → Option Cell)
    (i j : Nat) :
    cellAt (mapColumn d c f) i j = cellAt d i j ∨
    cellAt (mapColumn d c f) i j = (cellAt d i j).map f := by
  unfold mapColumn
  cases h : d.cols.indexOf? c with
  | none => exact Or.inl rfl
  | some jc =>
    unfold cellAt
    simp only [List.getElem?_map]
    cases hrow : d.rows[i]? with
    | none => exact Or.inl rfl
    | some row =>
      simp only [Option.map_some', Option.some_bind, mapAt_getElem?]
      by_cases hj : j = jc
      · simp [hj]
      · simp [hj]

/-- Pointwise description of the blanket `fillna`. -/
theorem cellAt_fillnaAll (d : DataFrame) (i j : Nat) :
    cellAt (fillnaAll d) i j = (cellAt d i j).map fillCell := by
  unfold cellAt fillnaAll
  simp only [List.getElem?_map]
  cases hrow : d.rows[i]? with
  | none => rfl
  | some row =>
    simp only [Option.map_some', Option.some_bind, List.getElem?_map]

/-- A cell that is missing or already the sentinel stays so under any column
transformation that maps the missing marker to itself or the sentinel and
fixes the sentinel. -/
theorem naor_mapColumn (d : DataFrame) (c : String) (f : Option Cell → Option Cell)
    (hf0 : f none = none ∨ f none = some (.str "N/A"))
    (hf1 : f (some (.str "N/A")) = some (.str "N/A")) (i j : Nat)
    (h : cellAt d i j = some none ∨ cellAt d i j = some (some (.str "N/A"))) :
    cellAt (mapColumn d c f) i j = some none ∨
    cellAt (mapColumn d c f) i j = some (some (.str "N/A")) := by
  rcases cellAt_mapColumn_cases d c f i j with he | he <;> rw [he]
  · exact h
  · rcases h with h | h <;> rw [h]
    · rcases hf0 with h0 | h0 <;> simp [h0]
    · simp [hf1]

/-- The conditional optional-column fill preserves missing-or-sentinel. -/
theorem naor_condFill (d : DataFrame) (c : String) (i j : Nat)
    (h : cellAt d i j = some none ∨ cellAt d i j = some (some (.str "N/A"))) :
    cellAt (if d.cols.contains c then fillColumn d c else d) i j = some none ∨
    cellAt (if d.cols.contains c then fillColumn d c else d) i j = some (some (.str "N/A")) := by
  split
  · exact naor_mapColumn d c fillCell (Or.inr rfl) rfl i j h
  · exact h

/-- Each step of the field loop either skips a seen field or records the
first-sight verdict `flagOf`. -/
theorem processEvent_cons (agg : String → List Nat) (f : String) (fs : List String)
    (fields : List (String × Option (List Nat))) :
    processEvent agg (f :: fs) fields =
      if (fields.map Prod.fst).contains f then processEvent agg fs fields
      else processEvent agg fs (fields ++ [(f, flagOf agg f)]) := by
  by_cases hm : maxCount (agg f) < 10 <;> simp [processEvent, flagOf, hm]

/-- Invariant: every stored verdict is the first-sight verdict of its key. -/
theorem processEvent_flags (agg : String → List Nat) :
    ∀ (fs : List String) (fields : List (String × Option (List Nat))),
    (∀ p ∈ fields, p.2 = flagOf agg p.1) →
    ∀ p ∈ processEvent agg fs fields, p.2 = flagOf agg p.1 := by
  intro fs
  induction fs with
  | nil => intro fields hinv p hp; exact hinv p hp
  | cons f fs ih =>
    intro fields hinv p hp
    rw [processEvent_cons] at hp
    split at hp
    · exact ih fields hinv p hp
    · refine ih _ ?_ p hp
      intro q hq
      rcases List.mem_append.mp hq with hq | hq
      · exact hinv q hq
      · rw [List.mem_singleton.mp hq]

/-- The keys after one event are the old keys plus that event's fields. -/
theorem processEvent_keys (agg : String → List Nat) :
    ∀ (fs : List String) (fields : List (String × Option (List Nat))) (g : String),
    (g ∈ (processEvent agg fs fields).map Prod.fst) ↔
      g ∈ fields.map Prod.fst ∨ g ∈ fs := by
  intro fs
  induction fs with
  | nil => intro fields g; simp [processEvent]
  | cons f fs ih =>
    intro fields g
    rw [processEvent_cons]
    split
    · rename_i hc
      rw [ih]
      constructor
      · rintro (h | h)
        · exact Or.inl h
        · exact Or.inr (List.mem_cons_of_mem f h)
      · rintro (h | h)
        · exact Or.inl h
        · rcases List.mem_cons.mp h with rfl | h
          · exact Or.inl (by simpa using hc)
          · exact Or.inr h
    · rw [ih]
      simp only [List.map_append, List.mem_append, List.map_cons, List.map_nil,
        List.mem_singleton, List.mem_cons]
      tauto

/-- The verdict invariant lifted over all events. -/
theorem discoverLoop_flags (agg : String → List Nat) :
    ∀ (events : List (List String)) (fields : List (String × Option (List Nat))),
    (∀ p ∈ fields, p.2 = flagOf agg p.1) →
    ∀ p ∈ discoverLoop agg events fields, p.2 = flagOf agg p.1 := by
  intro events
  induction events with
  | nil => intro fields hinv p hp; exact hinv p hp
  | cons ev rest ih =>
    intro fields hinv p hp
    exact ih _ (processEvent_flags agg ev fields hinv) p hp

/-- The keys after all events are the old keys plus every field seen. -/
theorem discoverLoop_keys (agg : String → List Nat) :
    ∀ (events : List (List String)) (fields : List (String × Option (List Nat))) (g : String),
    g ∈ (discoverLoop agg events fields).map Prod.fst ↔
      g ∈ fields.map Prod.fst ∨ ∃ e ∈ events, g ∈ e := by
  intro events
  induction events with
  | nil => intro fields g; simp [discoverLoop]
  | cons ev rest ih =>
    intro fields g
    show g ∈ (discoverLoop agg rest (processEvent agg ev fields)).map Prod.fst ↔ _
    rw [ih, processEvent_keys]
    simp only [List.mem_cons]
    constructor
    · rintro ((h | h) | ⟨e, he, hg⟩)
      · exact Or.inl h
      · exact Or.inr ⟨ev, Or.inl rfl, h⟩
      · exact Or.inr ⟨e, Or.inr he, hg⟩
    · rintro (h | ⟨e, (rfl | he), hg⟩)
      · exact Or.inl (Or.inl h)
      · exact Or.inl (Or.inr hg)
      · exact Or.inr ⟨e, he, hg⟩

/-- Claim C1 as stated is false: a field whose top bucket count is 12 (≥ 10)
is returned by `discover_fields_for_datatype`, and a field whose top bucket
count is 3 (< 10) is suppressed — the exact opposite of the claimed
inclusion rule. -/
theorem c1_counterexample :
    discover_fields_for_datatype (fun _ => [12]) [["field_a"]] = ["field_a"]
    ∧ 10 ≤ maxCount [12]
    ∧ discover_fields_for_datatype (fun _ => [3]) [["field_b"]] = []
    ∧ maxCount [3] < 10 := by
  refine ⟨by decide, by decide, by decide, by decide⟩

/-- Claim C1, amended: a field examined by `discover_fields_for_datatype` is
included in the returned list iff it occurs in some returned event and the
maximum count over its top-10 field-bucket aggregation is at least 10; fields
with maximum bucket count below 10 are the ones suppressed. -/
theorem c1_amended (agg : String → List Nat) (events : List (List String)) (f : String) :
    f ∈ discover_fields_for_datatype agg events ↔
      (∃ e ∈ events, f ∈ e) ∧ 10 ≤ maxCount (agg f) := by
  unfold discover_fields_for_datatype
  rw [List.mem_filterMap]
  constructor
  · rintro ⟨p, hp, hpf⟩
    have hflag := discoverLoop_flags agg events [] (by simp) p hp
    by_cases hs : p.2.isSome
    · rw [if_pos hs] at hpf
      have hf : p.1 = f := Option.some.inj hpf
      subst hf
      have hkey : p.1 ∈ (discoverLoop agg events []).map Prod.fst :=
        List.mem_map_of_mem Prod.fst hp
      rw [discoverLoop_keys] at hkey
      rcases hkey with hk | hk
      · simp at hk
      · refine ⟨hk, ?_⟩
        rw [hflag] at hs
        unfold flagOf at hs
        by_cases hm : maxCount (agg p.1) < 10
        · rw [if_pos hm] at hs
          simp at hs
        · omega
    · rw [if_neg hs] at hpf
      exact absurd hpf (by simp)
  · rintro ⟨hin, hmax⟩
    have hkey : f ∈ (discoverLoop agg events []).map Prod.fst :=
      (discoverLoop_keys agg events [] f).mpr (Or.inr hin)
    rcases List.mem_map.mp hkey with ⟨p, hp, hpf⟩
    have hflag := discoverLoop_flags agg events [] (by simp) p hp
    refine ⟨p, hp, ?_⟩
    have hs : p.2.isSome := by
      rw [hflag, hpf]
      unfold flagOf
      rw [if_neg (by omega)]
      rfl
    rw [if_pos hs, hpf]

/-- With a positive iteration budget the retry loop makes at least one
attempt. -/
theorem retryRun_attempts_pos (delay : Nat) (p : PyErr → Bool)
    (f : Nat → Except PyErr DataFrame) (i fuel : Nat) (h : 0 < fuel) :
    1 ≤ (retryRun delay p f i fuel).2.1 := by
  cases fuel with
  | zero => omega
  | succ n =>
    unfold retryRun
    cases f i with
    | ok a => simp
    | error e =>
      by_cases hp : p e
      · by_cases hn : n = 0
        · simp [hp, hn]
        · simp [hp, hn]
      · simp [hp]

/-- Claim C2 as stated is false: with the sketch resolving on every attempt
and the remote execution raising `ValueError "bad query"` — an error that is
not of the not-found kind, since the sketch did not fail to resolve — the
search path is attempted 3 times with two 10-unit sleeps instead of the
claimed exactly 1 attempt.  The retry predicate is the exception class
`ValueError`, not the not-found origin. -/
theorem c2_counterexample :
    (envValErrW 0).sketch ≠ none
    ∧ doSearchAttempt (envValErrW 0) 3 "q" 300 "desc" false
        = .error (.valueError "bad query")
    ∧ do_timesketch_search envValErrW 3 "q" 300 "desc" false
        = (.error (.valueError "bad query"), 3, [10, 10]) :=
  ⟨by decide, rfl, rfl⟩

/-- Claim C2, amended: the retried class is the exception type `ValueError`
(which the not-found failure raises, but which a remote execution failure may
raise as well), not the not-found origin.  When all 3 attempts raise
`ValueError`s, exactly 3 attempts are made with a fixed 10-unit sleep between
consecutive attempts and the last error is re-raised; when the first attempt
raises any non-`ValueError` error, exactly one attempt is made, no sleep
happens, and that error propagates unchanged. -/
theorem c2_amended (env : Nat → AttemptEnv) (sketch_id : Nat) (query : String)
    (limit : Nat) (sort : String) (starred : Bool) :
    (∀ e0 e1 e2 : PyErr,
      e0.isValueError = true → e1.isValueError = true → e2.isValueError = true →
      doSearchAttempt (env 0) sketch_id query limit sort starred = .error e0 →
      doSearchAttempt (env 1) sketch_id query limit sort starred = .error e1 →
      doSearchAttempt (env 2) sketch_id query limit sort starred = .error e2 →
      do_timesketch_search env sketch_id query limit sort starred
        = (.error e2, 3, [10, 10]))
    ∧ (∀ e : PyErr, e.isValueError = false →
        doSearchAttempt (env 0) sketch_id query limit sort starred = .error e →
        do_timesketch_search env sketch_id query limit sort starred = (.error e, 1, [])) := by
  constructor
  · intro e0 e1 e2 hv0 hv1 hv2 h0 h1 h2
    simp [do_timesketch_search, retryRun, h0, h1, h2, hv0, hv1, hv2]
  · intro e he hatt
    simp [do_timesketch_search, retryRun, hatt, he]

/-- Witness for the amended C2 at concrete inputs: a never-resolving sketch
(not-found `ValueError` on all attempts) yields 3 attempts with two 10-unit
sleeps and the last error re-raised; a first-attempt generic failure yields
one attempt and no sleep. -/
theorem c2_amended_witness :
    do_timesketch_search envNotFoundW 4 "q" 300 "desc" false
      = (.error (.valueError "Sketch with ID 4 not found."), 3, [10, 10])
    ∧ do_timesketch_search envBoomW 4 "q" 300 "desc" false
      = (.error (.otherError "boom"), 1, []) :=
  ⟨(c2_amended envNotFoundW 4 "q" 300 "desc" false).1
      (.valueError "Sketch with ID 4 not found.")
      (.valueError "Sketch with ID 4 not found.")
      (.valueError "Sketch with ID 4 not found.") rfl rfl rfl rfl rfl rfl,
   (c2_amended envBoomW 4 "q" 300 "desc" false).2 (.otherError "boom") rfl rfl⟩

/-- Claim C3 evaluated at the failing input `substrings = ["+"]`: the code
escapes `+` with TWO preceding backslashes (the later `\` pass re-escapes the
escape inserted by the earlier `+` pass), not exactly one as claimed; only
`/`, which follows `\` in `RESERVED_CHARS`, gets a single backslash. -/
theorem c3_escape_eval :
    escapeReserved "+" = "\\\\+"
    ∧ escapeReserved "+" ≠ "\\+"
    ∧ buildQuery ["+"] false "AND" = "*\\\\+*"
    ∧ escapeReserved "/" = "\\/" := by
  refine ⟨by decide, by decide, by decide, by decide⟩

/-- Claim C4 as stated is false: a base-tool (substring) search whose raw
table carries the column `source_ip` — outside the claimed fixed column set —
returns records still containing that column; nothing is dropped. -/
theorem c4_counterexample :
    (search_timesketch_events_substrings envOkW 1 ["a"] false "AND" "desc" false).result
      = .ok [[("datetime", some (.str "5")), ("data_type", some (.str "t")),
              ("tag", some (.str "N/A")), ("message", some (.str "m")),
              ("source_ip", some (.str "1.2.3.4"))]]
    ∧ "source_ip" ∈ (normalizeDf dfExtra).cols
    ∧ "source_ip" ∉ ["_id", "datetime", "data_type", "tag", "message",
                     "yara_match", "sha256_hash"] := by
  refine ⟨rfl, by decide, by decide⟩

/-- Claim C4, amended: no column restriction is applied on any path — the
normalized table keeps exactly the raw table's columns in order, and every
search (base and advanced tools alike) requests all fields plus `_id`. -/
theorem c4_amended (d : DataFrame) (q : String) (lim es : Nat) (sort : String) (st : Bool) :
    (normalizeDf d).cols = d.cols
    ∧ (mkSearchConfig q lim es sort st).returnFields = "*,_id" :=
  ⟨normalizeDf_cols d, rfl⟩

/-- Claim C5 evaluated at the failing input: with the sketch resolving and
the remote execution raising a generic error, `do_timesketch_search`
propagates the ORIGINAL error kind unwrapped (no `RuntimeError` search-failure
wrapper exists in the code, contrary to its own docstring), and an execution
failure that happens to be a `ValueError` is even retried 3 times. -/
theorem c5_unwrapped_error_eval :
    do_timesketch_search envBoomW 2 "q" 300 "desc" false
      = (.error (.otherError "boom"), 1, [])
    ∧ do_timesketch_search envValErrW 2 "q" 300 "desc" false
      = (.error (.valueError "bad query"), 3, [10, 10]) :=
  ⟨rfl, rfl⟩

/-- Claim C6: normalizing a non-empty result table leaves no cell missing,
and every cell that was missing (in the optional columns or anywhere else)
now holds the sentinel `"N/A"`. -/
theorem c6_no_missing_after_normalize (d : DataFrame) (h : d.rows ≠ []) :
    (∀ row ∈ (normalizeDf d).rows, ∀ cell ∈ row, cell.isSome)
    ∧ (∀ i j, cellAt d i j = some none →
        cellAt (normalizeDf d) i j = some (some (.str "N/A"))) := by
  have hne : d.rows.isEmpty = false := by
    cases hr : d.rows with
    | nil => exact absurd hr h
    | cons a b => rfl
  constructor
  · intro row hrow cell hcell
    unfold normalizeDf at hrow
    rw [hne] at hrow
    simp only [Bool.false_eq_true, if_false, fillnaAll, List.mem_map] at hrow
    obtain ⟨row0, _, rfl⟩ := hrow
    rw [List.mem_map] at hcell
    obtain ⟨c0, _, rfl⟩ := hcell
    exact fillCell_isSome c0
  · intro i j hmiss
    have naIso : ∀ dd : DataFrame,
        (cellAt dd i j = some none ∨ cellAt dd i j = some (some (.str "N/A"))) →
        cellAt (fillnaAll (isoColumn dd)) i j = some (some (.str "N/A")) := by
      intro dd hdd
      have h3 := naor_mapColumn dd "datetime" (Option.map isoCell) (Or.inl rfl) rfl i j hdd
      rw [cellAt_fillnaAll]
      unfold isoColumn
      rcases h3 with h3 | h3 <;> rw [h3] <;> rfl
    unfold normalizeDf
    rw [hne]
    simp only [Bool.false_eq_true, if_false]
    exact naIso _ (naor_condFill _ _ i j (naor_condFill _ _ i j (Or.inl hmiss)))

/-- Witness for C6: in a concrete frame with a missing `yara_match` cell,
normalization puts the sentinel there. -/
theorem c6_no_missing_after_normalize_witness :
    cellAt (normalizeDf dfMissing) 0 2 = some (some (.str "N/A")) :=
  (c6_no_missing_after_normalize dfMissing (by decide)).2 0 2 (by decide)

/-- Claim C7: the substring tool raises (rather than returns) an error
exactly when the substrings list is empty or the operator is outside
AND/OR, and in that case the raised error is the invalid-input `ValueError`,
the search executor was never invoked (0 attempts), and no query was built. -/
theorem c7_invalid_input (env : Nat → AttemptEnv) (sketch_id : Nat)
    (substrings : List String) (regex : Bool) (op sort : String) (starred : Bool) :
    ((∃ e, (search_timesketch_events_substrings env sketch_id substrings regex op
        sort starred).result = .error e)
      ↔ (substrings = [] ∨ (op ≠ "AND" ∧ op ≠ "OR")))
    ∧ ((substrings = [] ∨ (op ≠ "AND" ∧ op ≠ "OR")) →
        ∃ m, search_timesketch_events_substrings env sketch_id substrings regex op sort starred
          = { result := .error (.valueError m), searchAttempts := 0,
              limitUsed := none, queryUsed := none }) := by
  have hconv : (["AND", "OR"].contains op = true) ↔ (op = "AND" ∨ op = "OR") := by
    simp [List.contains_cons]
  by_cases h1 : substrings.isEmpty
  · have h1' : substrings = [] := List.isEmpty_iff.mp h1
    constructor
    · simp [search_timesketch_events_substrings, h1, h1']
    · intro _
      exact ⟨"Substrings list cannot be empty.",
        by simp [search_timesketch_events_substrings, h1]⟩
  · have h1' : ¬ substrings = [] := fun hh => h1 (by simp [hh])
    by_cases h2 : (["AND", "OR"].contains op)
    · have h2' := hconv.mp h2
      have hnoerr : ¬ ∃ e, (search_timesketch_events_substrings env sketch_id substrings
          regex op sort starred).result = .error e := by
        rintro ⟨e, he⟩
        rcases hq : (do_timesketch_search env sketch_id
            (buildQuery substrings regex op) 300 sort starred) with ⟨res, n, ds⟩
        rcases h2' with h | h <;> subst h <;>
          cases res <;> simp [search_timesketch_events_substrings, h1, hq] at he
      have hnobad : ¬ (substrings = [] ∨ (op ≠ "AND" ∧ op ≠ "OR")) := by
        rintro (hbad | hbad)
        · exact h1' hbad
        · rcases h2' with h | h
          · exact hbad.1 h
          · exact hbad.2 h
      exact ⟨⟨fun he => absurd he hnoerr, fun hb => absurd hb hnobad⟩,
             fun hb => absurd hb hnobad⟩
    · have h2' : ¬ (op = "AND" ∨ op = "OR") := fun hh => h2 (hconv.mpr hh)
      have hres : search_timesketch_events_substrings env sketch_id substrings regex op
          sort starred
          = { result := .error (.valueError ("Invalid boolean operator: " ++ op
                ++ ". Must be one of 'AND' or 'OR'."))
              searchAttempts := 0, limitUsed := none, queryUsed := none } := by
        unfold search_timesketch_events_substrings
        rw [if_neg h1, if_pos h2]
      constructor
      · constructor
        · intro _
          exact Or.inr ⟨fun hh => h2' (Or.inl hh), fun hh => h2' (Or.inr hh)⟩
        · intro _
          exact ⟨.valueError ("Invalid boolean operator: " ++ op
            ++ ". Must be one of 'AND' or 'OR'."), by rw [hres]⟩
      · intro _
        exact ⟨"Invalid boolean operator: " ++ op ++ ". Must be one of 'AND' or 'OR'.", hres⟩

/-- Witness for C7 at the empty substrings list. -/
theorem c7_invalid_input_witness :
    ∃ m, search_timesketch_events_substrings envOkW 1 [] false "AND" "desc" false
      = { result := .error (.valueError m), searchAttempts := 0,
          limitUsed := none, queryUsed := none } :=
  (c7_invalid_input envOkW 1 [] false "AND" "desc" false).2 (Or.inl rfl)

/-- Claim C8: once validation passes (and for the advanced tool always), an
error raised anywhere on the search path is not propagated: both tools return
the single-element error record `[{"result": "Error: <message>"}]` as a
normal value. -/
theorem c8_search_errors_as_values (env : Nat → AttemptEnv) (sketch_id : Nat)
    (substrings : List String) (regex : Bool) (op q sort : String) (starred : Bool)
    (e : PyErr) (hv : substrings ≠ []) (hop : op = "AND" ∨ op = "OR") :
    ((do_timesketch_search env sketch_id (buildQuery substrings regex op) 300 sort starred).1
        = .error e →
      (search_timesketch_events_substrings env sketch_id substrings regex op
        sort starred).result = .ok (errorRecord e))
    ∧ ((do_timesketch_search env sketch_id q 300 sort starred).1 = .error e →
      (search_timesketch_events_advanced env sketch_id q sort starred).result
        = .ok (errorRecord e)) := by
  have h1 : ¬ substrings.isEmpty = true := by simp [List.isEmpty_iff, hv]
  constructor
  · intro he
    rcases hq : (do_timesketch_search env sketch_id (buildQuery substrings regex op)
        300 sort starred) with ⟨res, n, ds⟩
    rw [hq] at he
    simp only at he
    subst he
    rcases hop with h | h <;> subst h <;>
      simp [search_timesketch_events_substrings, h1, hq]
  · intro he
    rcases hq : (do_timesketch_search env sketch_id q 300 sort starred) with ⟨res, n, ds⟩
    rw [hq] at he
    simp only at he
    subst he
    simp [search_timesketch_events_advanced, hq]

/-- Witness for C8: with a failing remote execution both tools return the
error record as a value. -/
theorem c8_search_errors_as_values_witness :
    (search_timesketch_events_substrings envBoomW 1 ["a"] false "AND" "desc" false).result
      = .ok (errorRecord (.otherError "boom"))
    ∧ (search_timesketch_events_advanced envBoomW 1 "qq" "desc" false).result
      = .ok (errorRecord (.otherError "boom")) :=
  ⟨(c8_search_errors_as_values envBoomW 1 ["a"] false "AND" "qq" "desc" false
      (.otherError "boom") (by decide) (Or.inl rfl)).1 rfl,
   (c8_search_errors_as_values envBoomW 1 ["a"] false "AND" "qq" "desc" false
      (.otherError "boom") (by decide) (Or.inl rfl)).2 rfl⟩

/-- Claim C9: a non-empty list of all-empty substrings passes validation,
produces no terms so the built query is the empty string, and the search is
executed (at least one attempt) with that empty query, returning normally. -/
theorem c9_all_empty_substrings (env : Nat → AttemptEnv) (sketch_id : Nat)
    (substrings : List String) (sort : String) (starred : Bool)
    (h1 : substrings ≠ []) (h2 : ∀ s ∈ substrings, s = "") :
    buildQuery substrings false "AND" = ""
    ∧ (search_timesketch_events_substrings env sketch_id substrings false "AND"
        sort starred).queryUsed = some ""
    ∧ 1 ≤ (search_timesketch_events_substrings env sketch_id substrings false "AND"
        sort starred).searchAttempts
    ∧ ∃ v, (search_timesketch_events_substrings env sketch_id substrings false "AND"
        sort starred).result = .ok v := by
  have hterms : buildTerms substrings false = [] := by
    rw [buildTerms, List.filterMap_eq_nil_iff]
    intro s hs
    rw [h2 s hs]
    rfl
  have hq : buildQuery substrings false "AND" = "" := by
    rw [buildQuery, hterms]
    rfl
  have h1' : ¬ substrings.isEmpty = true := by simp [List.isEmpty_iff, h1]
  have hpos : 1 ≤ (do_timesketch_search env sketch_id
      (buildQuery substrings false "AND") 300 sort starred).2.1 :=
    retryRun_attempts_pos 10 PyErr.isValueError _ 0 3 (by omega)
  rcases hr : (do_timesketch_search env sketch_id (buildQuery substrings false "AND")
      300 sort starred) with ⟨res, n, ds⟩
  rw [hq] at hr
  rw [hq, hr] at hpos
  refine ⟨hq, ?_, ?_, ?_⟩
  · cases res <;> simp [search_timesketch_events_substrings, h1', hq, hr]
  · cases res <;> simp [search_timesketch_events_substrings, h1', hq, hr] <;> exact hpos
  · cases res <;> simp [search_timesketch_events_substrings, h1', hq, hr]

/-- Witness for C9 at `substrings = ["", ""]`. -/
theorem c9_all_empty_substrings_witness :
    buildQuery ["", ""] false "AND" = ""
    ∧ (search_timesketch_events_substrings envOkW 1 ["", ""] false "AND"
        "desc" false).queryUsed = some ""
    ∧ 1 ≤ (search_timesketch_events_substrings envOkW 1 ["", ""] false "AND"
        "desc" false).searchAttempts
    ∧ ∃ v, (search_timesketch_events_substrings envOkW 1 ["", ""] false "AND"
        "desc" false).result = .ok v :=
  c9_all_empty_substrings envOkW 1 ["", ""] "desc" false (by decide) (by decide)

/-- Claim C10: both tool-surface search calls hand the executor its default
limit 300, so the configured maximum result count is 300; the
`expected_size + 1` bound is taken only for a falsy (zero) limit, which no
tool call produces. -/
theorem c10_limit_default (env : Nat → AttemptEnv) (sketch_id : Nat)
    (substrings : List String) (regex : Bool) (op q sort : String) (starred : Bool)
    (es : Nat) (hv : substrings ≠ []) (hop : op = "AND" ∨ op = "OR") :
    (search_timesketch_events_substrings env sketch_id substrings regex op
        sort starred).limitUsed = some 300
    ∧ (search_timesketch_events_advanced env sketch_id q sort starred).limitUsed = some 300
    ∧ (∀ limit : Nat, limit ≠ 0 → (mkSearchConfig q limit es sort starred).maxEntries = limit)
    ∧ (mkSearchConfig q 0 es sort starred).maxEntries = es + 1 := by
  have h1 : ¬ substrings.isEmpty = true := by simp [List.isEmpty_iff, hv]
  refine ⟨?_, ?_, ?_, ?_⟩
  · rcases hr : (do_timesketch_search env sketch_id (buildQuery substrings regex op)
        300 sort starred) with ⟨res, n, ds⟩
    rcases hop with h | h <;> subst h <;> cases res <;>
      simp [search_timesketch_events_substrings, h1, hr]
  · rcases hr : (do_timesketch_search env sketch_id q 300 sort starred) with ⟨res, n, ds⟩
    cases res <;> simp [search_timesketch_events_advanced, hr]
  · intro limit hl
    simp [mkSearchConfig, hl]
  · simp [mkSearchConfig]

/-- Witness for C10 at concrete inputs. -/
theorem c10_limit_default_witness :
    (search_timesketch_events_substrings envOkW 1 ["a"] false "AND"
        "desc" false).limitUsed = some 300
    ∧ (search_timesketch_events_advanced envOkW 1 "qq" "desc" false).limitUsed = some 300
    ∧ (∀ limit : Nat, limit ≠ 0 → (mkSearchConfig "qq" limit 7 "desc" false).maxEntries = limit)
    ∧ (mkSearchConfig "qq" 0 7 "desc" false).maxEntries = 7 + 1 :=
  c10_limit_default envOkW 1 ["a"] false "AND" "qq" "desc" false 7 (by decide) (Or.inl rfl)
